import Mathlib

/-!
Verification of the ResQ emergency-response orchestration core.

This file shallowly embeds the workflow engine of the repository:

* `src/backend/src/graph/state.py` — the shared incident record
  (`IncidentState`, `create_initial_state`);
* `src/backend/src/graph/workflow.py` — the LangGraph state machine
  (node functions `_run_supervisor` … `_hitl_node`, the routing
  functions, and graph execution);
* `src/backend/src/graph/orchestrator.py` — the orchestrator
  (`process_incident` with its idempotency cache, `_retrieve_context`,
  `_process_test_mode`, `_error_response`).

Modelling conventions:

* Python dict/TypedDict fields become structure fields.  Fields that
  `create_initial_state` always populates are plain fields; fields that
  can be absent before a node first writes them are `Option` fields, and
  a Python `state.get(k, d)` becomes `Option.getD`.
* Python floats (quality scores, confidence) are modelled as `ℚ`; the
  literals 0.3/0.7/0.9 become `mkRat 3 10` etc.
* Opaque payload dicts (retrieved documents, grounded claims,
  ambiguities, locations) are modelled as `String` values; their
  contents never influence control flow.
* The agent implementations live in `src/agents/…`, which is not part
  of the sources; every claim quantifies over arbitrary agent
  behaviour, so an agent invocation is modelled by an oracle
  `env : Nat → AgentOutput` giving the output of the k-th agent call of
  the run.  The shape of `AgentOutput` is modelled from the spec
  (§4.1 Agent Contract).
* The LangGraph driver is modelled by `runAux`: it executes the current
  node, applies the node's routing function, and follows the edge
  mapping of `build_graph`; the `hitl` node is terminal
  (`workflow.add_edge("hitl", END)`).  An unmatched route key (which
  would raise in LangGraph) yields `none`; fuel exhaustion also yields
  `none`.  We prove the supplied fuel always suffices.
-/

namespace ResQ

/-- Coordinates `{lat, lon}` passed as the optional `location` input. -/
structure Location where
  lat : ℚ
  lon : ℚ
deriving DecidableEq

/-- A recommended response asset `{"type": …, "quantity": …}`. -/
structure Asset where
  ty : String
  quantity : Nat
deriving DecidableEq

/-- The dict built by `_hitl_node` under `state["final_recommendation"]`. -/
structure FinalRec where
  incident_id : String
  priority : String
  incident_type : String
  recommended_assets : List Asset
  location : Option String
  address : Option String
  critical_instructions : String
  recommended_sops : List String
  quality_score : ℚ
  gaps_detected : List String
  grounded_claims_count : Nat
deriving DecidableEq

/-- The shared `IncidentState` TypedDict of `state.py`, restricted to the
fields the workflow and orchestrator read or write. -/
structure IncidentState where
  incident_id : String
  query : String
  channel : String
  user_role : String
  text_input : String
  audio_transcript : Option String
  image_embeddings : Option (List (List ℚ))
  location : Option Location
  retrieved_docs : List String
  retrieved_images : List String
  retrieved_sops : List String
  retrieved_landmarks : List String
  current_agent : String
  agent_history : List String
  iteration_count : Nat
  max_iterations : Nat
  intent : Option String
  initial_assessment : String
  priority : String
  incident_type : String
  recommended_assets : List Asset
  resolved_location : Option String
  address : Option String
  nearby_landmarks : List String
  recommended_sops : List String
  critical_instructions : String
  contraindications : Option String
  visual_analysis : Option String
  visual_confirmation : Bool
  quality_score : Option ℚ
  gaps_detected : List String
  grounding_issues : List String
  reflection_complete : Bool
  grounded_claims : List String
  ambiguities : List String
  next_agent : Option String
  requires_human_approval : Bool
  requires_more_info : Bool
  loop_back_to : Option String
  final_recommendation : Option FinalRec
  processing_complete : Bool
  total_processing_time_ms : Nat
  total_tokens_consumed : Nat
  errors : List String
deriving DecidableEq

/-- Modelled from the spec: the `result` payload of an Agent Output
(§4.1).  The agent classes under `src/agents/` are not part of the
sources; each node reads the keys below from `output.result` with
`dict.get`, so an absent key is `none`. -/
structure AgentResult where
  intent : Option String := none
  initial_assessment : Option String := none
  priority : Option String := none
  incident_type : Option String := none
  recommended_assets : Option (List Asset) := none
  resolved_location : Option String := none
  address : Option String := none
  nearby_landmarks : Option (List String) := none
  recommended_sops : Option (List String) := none
  critical_instructions : Option String := none
  contraindications : Option String := none
  image_analysis : Option String := none
  visual_confirmation : Option Bool := none
  quality_score : Option ℚ := none
  gaps_detected : Option (List String) := none
  grounding_issues : Option (List String) := none

/-- Modelled from the spec: an Agent Output (§4.1 Agent Contract): a
result payload, a suggested next agent, the two control flags, elapsed
time and cost, and grounded claims / ambiguity flags. -/
structure AgentOutput where
  result : AgentResult := {}
  next_agent : Option String := none
  requires_human_approval : Bool := false
  requires_more_info : Bool := false
  processing_time_ms : Nat := 0
  tokens_consumed : Nat := 0
  grounded_claims : List String := []
  ambiguities : List String := []

/-- The nodes added by `build_graph`. -/
inductive Node where
  | supervisor
  | triage
  | geo
  | protocol
  | vision
  | reflector
  | hitl
deriving DecidableEq

/-- `create_initial_state` of `state.py`. -/
def createInitialState (incident_id query text_input channel user_role : String)
    (location : Option Location) (audio_transcript : Option String)
    (image_embeddings : Option (List (List ℚ))) : IncidentState where
  incident_id := incident_id
  query := query
  channel := channel
  user_role := user_role
  text_input := text_input
  audio_transcript := audio_transcript
  image_embeddings := image_embeddings
  location := location
  retrieved_docs := []
  retrieved_images := []
  retrieved_sops := []
  retrieved_landmarks := []
  current_agent := "supervisor"
  agent_history := []
  iteration_count := 0
  max_iterations := 5
  intent := none
  initial_assessment := ""
  priority := "P3"
  incident_type := "Unknown"
  recommended_assets := []
  resolved_location := none
  address := none
  nearby_landmarks := []
  recommended_sops := []
  critical_instructions := ""
  contraindications := none
  visual_analysis := none
  visual_confirmation := false
  quality_score := none
  gaps_detected := []
  grounding_issues := []
  reflection_complete := false
  grounded_claims := []
  ambiguities := []
  next_agent := none
  requires_human_approval := false
  requires_more_info := false
  loop_back_to := none
  final_recommendation := none
  processing_complete := false
  total_processing_time_ms := 0
  total_tokens_consumed := 0
  errors := []

/-- `_run_supervisor` of `workflow.py` (the agent call is the oracle
output `o`).  Note `ambiguities` is replaced, not appended, when the
output carries any. -/
def runSupervisor (o : AgentOutput) (s : IncidentState) : IncidentState :=
  { s with
    intent := some (o.result.intent.getD "unclear")
    initial_assessment := o.result.initial_assessment.getD ""
    next_agent := o.next_agent
    agent_history := s.agent_history ++ ["supervisor"]
    requires_human_approval := o.requires_human_approval
    requires_more_info := o.requires_more_info
    total_processing_time_ms := s.total_processing_time_ms + o.processing_time_ms
    total_tokens_consumed := s.total_tokens_consumed + o.tokens_consumed
    ambiguities := if o.ambiguities.isEmpty then s.ambiguities else o.ambiguities }

/-- `_run_triage` of `workflow.py`.  Note `recommended_assets` is
replaced wholesale and `requires_human_approval` is overwritten with the
agent's flag; `grounded_claims` is appended to. -/
def runTriage (o : AgentOutput) (s : IncidentState) : IncidentState :=
  { s with
    priority := o.result.priority.getD "P3"
    incident_type := o.result.incident_type.getD "Unknown"
    recommended_assets := o.result.recommended_assets.getD []
    next_agent := o.next_agent
    agent_history := s.agent_history ++ ["triage"]
    requires_human_approval := o.requires_human_approval
    total_processing_time_ms := s.total_processing_time_ms + o.processing_time_ms
    total_tokens_consumed := s.total_tokens_consumed + o.tokens_consumed
    grounded_claims :=
      if o.grounded_claims.isEmpty then s.grounded_claims
      else s.grounded_claims ++ o.grounded_claims }

/-- `_run_geo` of `workflow.py`; `ambiguities` is appended to here. -/
def runGeo (o : AgentOutput) (s : IncidentState) : IncidentState :=
  { s with
    resolved_location := o.result.resolved_location
    address := o.result.address
    nearby_landmarks := o.result.nearby_landmarks.getD []
    next_agent := o.next_agent
    agent_history := s.agent_history ++ ["geo"]
    requires_more_info := o.requires_more_info
    total_processing_time_ms := s.total_processing_time_ms + o.processing_time_ms
    total_tokens_consumed := s.total_tokens_consumed + o.tokens_consumed
    ambiguities :=
      if o.ambiguities.isEmpty then s.ambiguities
      else s.ambiguities ++ o.ambiguities }

/-- `_run_protocol` of `workflow.py`. -/
def runProtocol (o : AgentOutput) (s : IncidentState) : IncidentState :=
  { s with
    recommended_sops := o.result.recommended_sops.getD []
    critical_instructions := o.result.critical_instructions.getD ""
    contraindications := o.result.contraindications
    next_agent := o.next_agent
    agent_history := s.agent_history ++ ["protocol"]
    total_processing_time_ms := s.total_processing_time_ms + o.processing_time_ms
    total_tokens_consumed := s.total_tokens_consumed + o.tokens_consumed
    grounded_claims :=
      if o.grounded_claims.isEmpty then s.grounded_claims
      else s.grounded_claims ++ o.grounded_claims }

/-- `_run_vision` of `workflow.py`. -/
def runVision (o : AgentOutput) (s : IncidentState) : IncidentState :=
  { s with
    visual_analysis := o.result.image_analysis
    visual_confirmation := o.result.visual_confirmation.getD false
    next_agent := o.next_agent
    agent_history := s.agent_history ++ ["vision"]
    requires_more_info := o.requires_more_info
    total_processing_time_ms := s.total_processing_time_ms + o.processing_time_ms
    total_tokens_consumed := s.total_tokens_consumed + o.tokens_consumed }

/-- `_run_reflector` of `workflow.py`; `requires_human_approval` is
again overwritten with the agent's flag. -/
def runReflector (o : AgentOutput) (s : IncidentState) : IncidentState :=
  { s with
    quality_score := some (o.result.quality_score.getD (mkRat 7 10))
    gaps_detected := o.result.gaps_detected.getD []
    grounding_issues := o.result.grounding_issues.getD []
    reflection_complete := true
    next_agent := o.next_agent
    agent_history := s.agent_history ++ ["reflector"]
    requires_human_approval := o.requires_human_approval
    requires_more_info := o.requires_more_info
    loop_back_to := if o.requires_more_info then o.next_agent else none
    total_processing_time_ms := s.total_processing_time_ms + o.processing_time_ms
    total_tokens_consumed := s.total_tokens_consumed + o.tokens_consumed }

/-- `_hitl_node` of `workflow.py`: assembles the final recommendation
and unconditionally sets `processing_complete` and
`requires_human_approval`. -/
def hitlNode (s : IncidentState) : IncidentState :=
  { s with
    final_recommendation := some
      { incident_id := s.incident_id
        priority := s.priority
        incident_type := s.incident_type
        recommended_assets := s.recommended_assets
        location := s.resolved_location
        address := s.address
        critical_instructions := s.critical_instructions
        recommended_sops := s.recommended_sops
        quality_score := s.quality_score.getD (mkRat 7 10)
        gaps_detected := s.gaps_detected
        grounded_claims_count := s.grounded_claims.length }
    processing_complete := true
    requires_human_approval := true }

/-- Dispatch of `build_graph`'s `add_node` targets. -/
def execNode (o : AgentOutput) : Node → IncidentState → IncidentState
  | Node.supervisor, s => runSupervisor o s
  | Node.triage, s => runTriage o s
  | Node.geo, s => runGeo o s
  | Node.protocol, s => runProtocol o s
  | Node.vision, s => runVision o s
  | Node.reflector, s => runReflector o s
  | Node.hitl, s => hitlNode s

/-- `_route_after_supervisor` of `workflow.py` (`intent` is read with
default "unclear"). -/
def routeAfterSupervisor (s : IncidentState) : String :=
  if s.intent.getD "unclear" = "unclear" ∨ s.requires_human_approval then "hitl"
  else if s.intent.getD "unclear" = "location_unclear" then "geo"
  else if s.intent.getD "unclear" = "visual_needed" then "vision"
  else "triage"

/-- `_route_after_geo` of `workflow.py`. -/
def routeAfterGeo (s : IncidentState) : String :=
  if s.requires_more_info then "hitl" else "triage"

/-- `_route_after_vision` of `workflow.py`. -/
def routeAfterVision (s : IncidentState) : String :=
  if s.requires_more_info then "hitl" else "triage"

/-- `_route_after_triage` of `workflow.py` (the unconditional
`add_edge("triage", "protocol")`). -/
def routeAfterTriage (_ : IncidentState) : String :=
  "protocol"

/-- `_route_after_protocol` of `workflow.py` (the unconditional
`add_edge("protocol", "reflector")`). -/
def routeAfterProtocol (_ : IncidentState) : String :=
  "reflector"

/-- `_route_after_reflector` of `workflow.py`.  The router reads the
quality score (default 0.7), sends the run to `hitl` once
`iteration_count >= max_iterations` or the score reaches 0.7, and
otherwise loops back to a valid target, incrementing the iteration
counter as a side effect on the state.  A `loop_back_to` of `None` or
an invalid name falls through to `hitl`. -/
def routeAfterReflector (s : IncidentState) : String × IncidentState :=
  if s.max_iterations ≤ s.iteration_count then ("hitl", s)
  else if mkRat 7 10 ≤ s.quality_score.getD (mkRat 7 10) then ("hitl", s)
  else
    match s.loop_back_to with
    | some lb =>
        if lb ∈ (["supervisor", "triage", "geo"] : List String) then
          (lb, { s with iteration_count := s.iteration_count + 1 })
        else ("hitl", s)
    | none => ("hitl", s)

/-- Routing step after each node: the node's routing function, together
with any state mutation the router performs (only `_route_after_reflector`
mutates).  `hitl` has the unconditional edge to `END`. -/
def stepRoute : Node → IncidentState → String × IncidentState
  | Node.supervisor, s => (routeAfterSupervisor s, s)
  | Node.geo, s => (routeAfterGeo s, s)
  | Node.vision, s => (routeAfterVision s, s)
  | Node.triage, s => (routeAfterTriage s, s)
  | Node.protocol, s => (routeAfterProtocol s, s)
  | Node.reflector, s => routeAfterReflector s
  | Node.hitl, s => ("END", s)

/-- The union of the route-key → node mappings of the
`add_conditional_edges` calls in `build_graph` (each router only ever
produces keys of its own mapping). -/
def nameToNode : String → Option Node
  | "supervisor" => some Node.supervisor
  | "triage" => some Node.triage
  | "geo" => some Node.geo
  | "protocol" => some Node.protocol
  | "vision" => some Node.vision
  | "reflector" => some Node.reflector
  | "hitl" => some Node.hitl
  | _ => none

/-- Graph execution, as compiled by `build_graph` and driven by
`AgentWorkflow.run`: execute the current node (the k-th agent call of
the run takes output `env k`), route, and continue; `hitl` is terminal.
Returns the trace of executed nodes, each paired with the state after
that node (and after its routing step), together with the final state.
`none` arises only from fuel exhaustion or an unmatched route key;
`runWorkflow_isSome`-style results below show neither occurs. -/
def runAux (env : Nat → AgentOutput) :
    Nat → Nat → Node → IncidentState →
    Option (List (Node × IncidentState) × IncidentState)
  | 0, _, _, _ => none
  | fuel + 1, k, n, s =>
    if n = Node.hitl then
      let s' := hitlNode s
      some ([(Node.hitl, s')], s')
    else
      let s' := execNode (env k) n s
      let r := stepRoute n s'
      match nameToNode r.1 with
      | none => none
      | some n' =>
        match runAux env fuel (k + 1) n' r.2 with
        | none => none
        | some (tr, fs) => some ((n, r.2) :: tr, fs)

/-- Fuel sufficient for any run (shown by `measure`-based lemmas
below). -/
def workflowFuel (s : IncidentState) : Nat :=
  6 * (s.max_iterations - s.iteration_count) + 6

/-- `AgentWorkflow.run`: invoke the compiled graph at the entry point
`supervisor`. -/
def runWorkflow (env : Nat → AgentOutput) (s0 : IncidentState) :
    Option (List (Node × IncidentState) × IncidentState) :=
  runAux env (workflowFuel s0) 0 Node.supervisor s0

/-! ### Orchestrator (`orchestrator.py`) -/

/-- The fixed-shape map of named result lists built by
`_retrieve_context`. -/
structure Context where
  docs : List String := []
  sops : List String := []
  landmarks : List String := []
  images : List String := []
deriving DecidableEq

/-- Outcomes of the external calls `_retrieve_context` makes: the
embedding of the query and the four `hybrid_search` calls; each either
returns a value or raises (`Except.error`). -/
structure RetrievalEnv where
  embed : Except String (List ℚ)
  searchDocs : Except String (List String)
  searchSops : Except String (List String)
  searchLandmarks : Except String (List String)
  searchImages : Except String (List String)

/-- Python truthiness of the `image_embeddings` argument
(`if image_embeddings:`): a non-`None`, non-empty list. -/
def imagesTruthy (image_embeddings : Option (List (List ℚ))) : Bool :=
  match image_embeddings with
  | some l => !l.isEmpty
  | none => false

/-- `_retrieve_context` of `orchestrator.py`.  Every search is wrapped
in its own try/except that leaves the corresponding list empty on
failure; an embedding failure hits the outer try/except, leaving the
whole context empty.  The landmark search runs only when `location` is
`None`, the visual search only when image embeddings are present. -/
def retrieveContext (renv : RetrievalEnv) (location : Option Location)
    (image_embeddings : Option (List (List ℚ))) : Context :=
  match renv.embed with
  | Except.error _ => {}
  | Except.ok _ =>
    { docs := match renv.searchDocs with
        | Except.ok r => r
        | Except.error _ => []
      sops := match renv.searchSops with
        | Except.ok r => r
        | Except.error _ => []
      landmarks :=
        if location = none then
          match renv.searchLandmarks with
          | Except.ok r => r
          | Except.error _ => []
        else []
      images :=
        if imagesTruthy image_embeddings then
          match renv.searchImages with
          | Except.ok r => r
          | Except.error _ => []
        else [] }

/-- The initial state built by `_process_prod_mode`:
`create_initial_state` plus the retrieved context. -/
def prodInitialState (incident_id query text_input channel user_role : String)
    (location : Option Location) (audio_transcript : Option String)
    (image_embeddings : Option (List (List ℚ))) (ctx : Context) : IncidentState :=
  { createInitialState incident_id query text_input channel user_role
      location audio_transcript image_embeddings with
    retrieved_docs := ctx.docs
    retrieved_sops := ctx.sops
    retrieved_landmarks := ctx.landmarks
    retrieved_images := ctx.images }

/-- The result dict returned by `process_incident`, restricted to the
fields common to the branches plus the status/error markers the claims
mention. -/
structure OrchResult where
  incident_id : String
  status : String
  error : Option String := none
  priority : String := "P3"
  incident_type : String := "Unknown"
  recommended_assets : List Asset := []
  critical_instructions : String := ""
  requires_human_approval : Bool := false
  processing_time_ms : Nat := 0
  mode : Option String := none
deriving DecidableEq

/-- `_error_response` of `orchestrator.py`: the conservative fallback. -/
def errorResponse (incident_id : String) (error : String)
    (elapsed_ms : Nat) : OrchResult where
  incident_id := incident_id
  status := "error"
  error := some error
  priority := "P2"
  incident_type := "Unknown_RequiresReview"
  recommended_assets := [{ ty := "ALS_Ambulance", quantity := 1 }]
  critical_instructions := "Escalate to human dispatcher immediately."
  requires_human_approval := true
  processing_time_ms := elapsed_ms

/-- `process_incident` of `orchestrator.py`, with the
retrieval-plus-mode-routing block abstracted as its outcome
`modeResult` (`Except.error` when that block raises).  The idempotency
cache is the association list `cache` (`self._processed_incidents`,
newest entry first, as a Python dict observed through membership and
lookup).  On a cache hit with `force_reprocess` false the cached result
is returned unchanged and nothing is recomputed; on a normal completion
the result is given its processing metadata and stored under
`incident_id` before being returned; on an exception `_error_response`
is returned and the cache is left untouched. -/
def processIncident (cache : List (String × OrchResult)) (incident_id : String)
    (force_reprocess : Bool) (modeResult : Except String OrchResult)
    (mode : String) (elapsed_ms : Nat) :
    OrchResult × List (String × OrchResult) :=
  match force_reprocess, List.lookup incident_id cache with
  | false, some cached => (cached, cache)
  | _, _ =>
    match modeResult with
    | Except.ok r =>
        let r2 := { r with processing_time_ms := elapsed_ms, mode := some mode }
        (r2, (incident_id, r2) :: cache)
    | Except.error e => (errorResponse incident_id e elapsed_ms, cache)

/-- The JSON object parsed from the completion in `_process_test_mode`;
each field is read with `dict.get`, so an absent key is `none`. -/
structure TestParsed where
  priority : Option String := none
  incident_type : Option String := none
  recommended_assets : Option (List Asset) := none
  critical_instructions : Option String := none
  reasoning : Option String := none
  confidence : Option ℚ := none

/-- The dict returned by the success path of `_process_test_mode`. -/
structure TestModeResult where
  incident_id : String
  status : String
  priority : String
  incident_type : String
  recommended_assets : List Asset
  critical_instructions : String
  reasoning : String
  confidence : ℚ
  requires_human_approval : Bool
  tokens_consumed : Nat
  model_used : String
deriving DecidableEq

/-- The success path of `_process_test_mode` of `orchestrator.py`
(after `json.loads` succeeded): note `requires_human_approval` is
`result.get("priority") in ["P1", "P2"]` — computed from the parsed
priority without the `"P3"` default used for the `priority` field. -/
def processTestMode (incident_id : String) (parsed : TestParsed)
    (tokens : Nat) (model : String) : TestModeResult where
  incident_id := incident_id
  status := "test_complete"
  priority := parsed.priority.getD "P3"
  incident_type := parsed.incident_type.getD "Unknown"
  recommended_assets := parsed.recommended_assets.getD []
  critical_instructions := parsed.critical_instructions.getD ""
  reasoning := parsed.reasoning.getD ""
  confidence := parsed.confidence.getD (mkRat 7 10)
  requires_human_approval :=
    decide (parsed.priority = some "P1" ∨ parsed.priority = some "P2")
  tokens_consumed := tokens
  model_used := model

/-! ### Chain of consecutive run states

`chainRel P l` says every pair of consecutive entries of `l` satisfies
`P` (a structurally recursive rendering of `List.Chain'`, kept
executable so that concrete runs can be checked by `decide`). -/

def chainRel (P : IncidentState → IncidentState → Prop) : List IncidentState → Prop
  | [] => True
  | [_] => True
  | a :: b :: l => P a b ∧ chainRel P (b :: l)

instance chainRel.decidable (P : IncidentState → IncidentState → Prop)
    [DecidableRel P] : ∀ l, Decidable (chainRel P l)
  | [] => isTrue trivial
  | [_] => isTrue trivial
  | a :: b :: l =>
    have : Decidable (chainRel P (b :: l)) := chainRel.decidable P (b :: l)
    inferInstanceAs (Decidable (P a b ∧ chainRel P (b :: l)))

/-- The sequence of states of a run: the initial state followed by the
state after each executed node. -/
def stateChain (s0 : IncidentState) (tr : List (Node × IncidentState)) :
    List IncidentState :=
  s0 :: tr.map Prod.snd

/-! ### Termination measure -/

/-- Position of a node within one forward pass of the graph: every edge
that does not go through the reflector's loop-back strictly decreases
it. -/
def rank : Node → Nat
  | Node.supervisor => 5
  | Node.geo => 4
  | Node.vision => 4
  | Node.triage => 3
  | Node.protocol => 2
  | Node.reflector => 1
  | Node.hitl => 0

/-- Termination measure: remaining loop-back budget (weighted by the
longest pass) plus the position in the current pass. -/
def stepsBound (s : IncidentState) (n : Node) : Nat :=
  6 * (s.max_iterations - s.iteration_count) + rank n

/-! ### Statements of spec properties under test -/

/-- The spec's monotonicity property for `requires_human_approval`:
along every pair of consecutive states of a run, once the flag is true
it stays true. -/
def ApprovalMonotoneRun (env : Nat → AgentOutput) (s0 : IncidentState) : Prop :=
  ∀ tr fs, runWorkflow env s0 = some (tr, fs) →
    chainRel (fun a b => a.requires_human_approval = true → b.requires_human_approval = true)
      (stateChain s0 tr)

/-- The spec's append-only property: along every pair of consecutive
states of a run, each of `recommended_assets`, the retrieved-evidence
lists, `agent_history`, `grounded_claims` and `ambiguities` extends the
earlier list. -/
def AppendOnlyRun (env : Nat → AgentOutput) (s0 : IncidentState) : Prop :=
  ∀ tr fs, runWorkflow env s0 = some (tr, fs) →
    chainRel (fun a b =>
        a.recommended_assets <+: b.recommended_assets ∧
        a.retrieved_docs <+: b.retrieved_docs ∧
        a.retrieved_images <+: b.retrieved_images ∧
        a.retrieved_sops <+: b.retrieved_sops ∧
        a.retrieved_landmarks <+: b.retrieved_landmarks ∧
        a.agent_history <+: b.agent_history ∧
        a.grounded_claims <+: b.grounded_claims ∧
        a.ambiguities <+: b.ambiguities)
      (stateChain s0 tr)

/-- The spec's gating property for the final recommendation: it is only
assembled in runs whose `agent_history` contains a triage execution. -/
def TriageBeforeAssembly (env : Nat → AgentOutput) (s0 : IncidentState) : Prop :=
  ∀ tr fs, runWorkflow env s0 = some (tr, fs) →
    fs.final_recommendation.isSome = true → "triage" ∈ fs.agent_history

/-! ### Concrete runs used as witnesses and counterexamples -/

/-- A generic initial state (all optional inputs absent). -/
def stBase : IncidentState :=
  createInitialState "inc-1" "fire downtown" "fire downtown" "web" "dispatcher"
    none none none

/-- Agent behaviour: supervisor classifies "medical"; triage flags
`requires_human_approval`; the reflector reports quality 0.9 with the
flag cleared, sending the run to the checkpoint. -/
def envMono : Nat → AgentOutput := fun k =>
  if k = 0 then { result := { intent := some "medical" } }
  else if k = 1 then { requires_human_approval := true }
  else if k = 2 then {}
  else { result := { quality_score := some (mkRat 9 10) } }

/-- Agent behaviour of the spec's Scenario B: supervisor classifies
"medical"; every reflector pass reports quality 0.3 and loops back to
triage; triage and protocol return empty outputs. -/
def envB : Nat → AgentOutput := fun k =>
  if k = 0 then { result := { intent := some "medical" } }
  else if k % 3 = 1 then {}
  else if k % 3 = 2 then {}
  else { result := { quality_score := some (mkRat 3 10) }
         requires_more_info := true
         next_agent := some "triage" }

/-- Agent behaviour: the first triage pass recommends a fire engine,
the reflector loops back once, and the second triage pass replaces the
recommendation with an ambulance. -/
def envLoop : Nat → AgentOutput := fun k =>
  if k = 0 then { result := { intent := some "medical" } }
  else if k = 1 then
    { result := { recommended_assets := some [{ ty := "Fire_Engine", quantity := 1 }] } }
  else if k = 2 then {}
  else if k = 3 then
    { result := { quality_score := some (mkRat 3 10) }
      requires_more_info := true
      next_agent := some "triage" }
  else if k = 4 then
    { result := { recommended_assets := some [{ ty := "ALS_Ambulance", quantity := 2 }] } }
  else if k = 5 then {}
  else { result := { quality_score := some (mkRat 9 10) } }

/-- Agent behaviour: the supervisor classifies the intent as "unclear",
sending the run straight to the checkpoint. -/
def envU : Nat → AgentOutput := fun _ =>
  { result := { intent := some "unclear" } }

/-- A successful prod-mode recommendation, used as a recomputation
result in the idempotency scenarios. -/
def okResult : OrchResult where
  incident_id := "inc-1"
  status := "workflow_complete"
  priority := "P1"
  incident_type := "Fire_Structure"
  recommended_assets := [{ ty := "Fire_Engine", quantity := 2 }]
  critical_instructions := "Evacuate the block."
  requires_human_approval := true

end ResQ

namespace ResQ

lemma execNode_iteration_count (o : AgentOutput) (n : Node) (s : IncidentState) :
    (execNode o n s).iteration_count = s.iteration_count := by
  cases n <;> rfl

lemma execNode_max_iterations (o : AgentOutput) (n : Node) (s : IncidentState) :
    (execNode o n s).max_iterations = s.max_iterations := by
  cases n <;> rfl

lemma routeAfterReflector_snd (s : IncidentState) :
    (routeAfterReflector s).2 = s ∨
      (s.iteration_count < s.max_iterations ∧
        (routeAfterReflector s).2 = { s with iteration_count := s.iteration_count + 1 }) := by
  unfold routeAfterReflector
  by_cases h1 : s.max_iterations ≤ s.iteration_count
  · simp [h1]
  · by_cases h2 : mkRat 7 10 ≤ s.quality_score.getD (mkRat 7 10)
    · simp [h1, h2]
    · cases hlb : s.loop_back_to with
      | none => simp [h1, h2, hlb]
      | some lb =>
        by_cases h3 : lb ∈ (["supervisor", "triage", "geo"] : List String)
        · simp only [h1, h2, hlb, h3, if_neg, if_pos, if_true, if_false]
          right
          exact ⟨Nat.lt_of_not_le h1, by simp [h3]⟩
        · simp [h1, h2, hlb, h3]

lemma stepRoute_snd (n : Node) (s : IncidentState) :
    (stepRoute n s).2 = s ∨
      (s.iteration_count < s.max_iterations ∧
        (stepRoute n s).2 = { s with iteration_count := s.iteration_count + 1 }) := by
  cases n with
  | reflector => exact routeAfterReflector_snd s
  | supervisor => exact Or.inl rfl
  | triage => exact Or.inl rfl
  | geo => exact Or.inl rfl
  | protocol => exact Or.inl rfl
  | vision => exact Or.inl rfl
  | hitl => exact Or.inl rfl

lemma stepRoute_advance (n : Node) (hn : n ≠ Node.hitl) (s : IncidentState) :
    ∃ n', nameToNode (stepRoute n s).1 = some n' ∧
      stepsBound (stepRoute n s).2 n' < stepsBound s n := by
  cases n with
  | hitl => exact absurd rfl hn
  | supervisor =>
    show ∃ n', nameToNode (routeAfterSupervisor s) = some n' ∧
      stepsBound s n' < stepsBound s Node.supervisor
    unfold routeAfterSupervisor
    split_ifs with h1 h2 h3
    · exact ⟨Node.hitl, rfl, by simp [stepsBound, rank]⟩
    · exact ⟨Node.geo, rfl, by simp [stepsBound, rank]⟩
    · exact ⟨Node.vision, rfl, by simp [stepsBound, rank]⟩
    · exact ⟨Node.triage, rfl, by simp [stepsBound, rank]⟩
  | geo =>
    show ∃ n', nameToNode (routeAfterGeo s) = some n' ∧
      stepsBound s n' < stepsBound s Node.geo
    unfold routeAfterGeo
    split_ifs with h1
    · exact ⟨Node.hitl, rfl, by simp [stepsBound, rank]⟩
    · exact ⟨Node.triage, rfl, by simp [stepsBound, rank]⟩
  | vision =>
    show ∃ n', nameToNode (routeAfterVision s) = some n' ∧
      stepsBound s n' < stepsBound s Node.vision
    unfold routeAfterVision
    split_ifs with h1
    · exact ⟨Node.hitl, rfl, by simp [stepsBound, rank]⟩
    · exact ⟨Node.triage, rfl, by simp [stepsBound, rank]⟩
  | triage =>
    exact ⟨Node.protocol, rfl, by simp [stepRoute, stepsBound, rank]⟩
  | protocol =>
    exact ⟨Node.reflector, rfl, by simp [stepRoute, stepsBound, rank]⟩
  | reflector =>
    show ∃ n', nameToNode (routeAfterReflector s).1 = some n' ∧
      stepsBound (routeAfterReflector s).2 n' < stepsBound s Node.reflector
    unfold routeAfterReflector
    by_cases h1 : s.max_iterations ≤ s.iteration_count
    · exact ⟨Node.hitl, by simp [h1]; decide, by simp [h1, stepsBound, rank]⟩
    · by_cases h2 : mkRat 7 10 ≤ s.quality_score.getD (mkRat 7 10)
      · exact ⟨Node.hitl, by simp [h1, h2]; decide, by simp [h1, h2, stepsBound, rank]⟩
      · cases hlb : s.loop_back_to with
        | none => exact ⟨Node.hitl, by simp [h1, h2, hlb]; decide, by simp [h1, h2, hlb, stepsBound, rank]⟩
        | some lb =>
          by_cases h3 : lb ∈ (["supervisor", "triage", "geo"] : List String)
          · have hlt : s.iteration_count < s.max_iterations := Nat.lt_of_not_le h1
            have hm : lb = "supervisor" ∨ lb = "triage" ∨ lb = "geo" := by
              simpa using h3
            rcases hm with rfl | rfl | rfl
            · refine ⟨Node.supervisor, by simp [h1, h2, hlb, h3]; decide, ?_⟩
              simp only [h1, h2, hlb, h3, if_pos, if_neg, if_false, if_true]
              simp [stepsBound, rank]
              omega
            · refine ⟨Node.triage, by simp [h1, h2, hlb, h3]; decide, ?_⟩
              simp only [h1, h2, hlb, h3, if_pos, if_neg, if_false, if_true]
              simp [stepsBound, rank]
              omega
            · refine ⟨Node.geo, by simp [h1, h2, hlb, h3]; decide, ?_⟩
              simp only [h1, h2, hlb, h3, if_pos, if_neg, if_false, if_true]
              simp [stepsBound, rank]
              omega
          · exact ⟨Node.hitl, by simp [h1, h2, hlb, h3]; decide, by simp [h1, h2, hlb, h3, stepsBound, rank]⟩


lemma runAux_isSome (env : Nat → AgentOutput) :
    ∀ fuel k n s, stepsBound s n < fuel → (runAux env fuel k n s).isSome = true := by
  intro fuel
  induction fuel with
  | zero => intro k n s h; omega
  | succ fuel ih =>
    intro k n s h
    by_cases hn : n = Node.hitl
    · subst hn
      simp [runAux]
    · obtain ⟨n', hname, hlt⟩ := stepRoute_advance n hn (execNode (env k) n s)
      have hsb : stepsBound (execNode (env k) n s) n = stepsBound s n := by
        simp [stepsBound, execNode_iteration_count, execNode_max_iterations]
      have hrec := ih (k + 1) n' (stepRoute n (execNode (env k) n s)).2 (by omega)
      simp only [runAux, if_neg hn, hname]
      cases hr : runAux env fuel (k + 1) n' (stepRoute n (execNode (env k) n s)).2 with
      | none => rw [hr] at hrec; simp at hrec
      | some p => cases p with
        | mk tr fs => simp

lemma runWorkflow_isSome (env : Nat → AgentOutput) (s0 : IncidentState) :
    (runWorkflow env s0).isSome = true := by
  apply runAux_isSome
  simp [stepsBound, workflowFuel, rank]


lemma stepRoute_pres (n : Node) (s : IncidentState) :
    (stepRoute n s).2.final_recommendation = s.final_recommendation ∧
    (stepRoute n s).2.retrieved_docs = s.retrieved_docs ∧
    (stepRoute n s).2.retrieved_sops = s.retrieved_sops ∧
    (stepRoute n s).2.retrieved_landmarks = s.retrieved_landmarks ∧
    (stepRoute n s).2.retrieved_images = s.retrieved_images ∧
    (stepRoute n s).2.max_iterations = s.max_iterations := by
  rcases stepRoute_snd n s with h | ⟨_, h⟩ <;> rw [h] <;>
    exact ⟨rfl, rfl, rfl, rfl, rfl, rfl⟩

lemma stepRoute_iter (n : Node) (s : IncidentState)
    (h : s.iteration_count ≤ s.max_iterations) :
    (stepRoute n s).2.iteration_count ≤ s.max_iterations := by
  rcases stepRoute_snd n s with hr | ⟨hlt, hr⟩ <;> rw [hr]
  · exact h
  · exact hlt

lemma execNode_final_rec (o : AgentOutput) (n : Node) (s : IncidentState)
    (hn : n ≠ Node.hitl) :
    (execNode o n s).final_recommendation = s.final_recommendation := by
  cases n <;> first | rfl | exact absurd rfl hn

lemma execNode_retrieved (o : AgentOutput) (n : Node) (s : IncidentState) :
    (execNode o n s).retrieved_docs = s.retrieved_docs ∧
    (execNode o n s).retrieved_sops = s.retrieved_sops ∧
    (execNode o n s).retrieved_landmarks = s.retrieved_landmarks ∧
    (execNode o n s).retrieved_images = s.retrieved_images := by
  cases n <;> exact ⟨rfl, rfl, rfl, rfl⟩

lemma runAux_spec (env : Nat → AgentOutput) :
    ∀ fuel k n s tr fs, runAux env fuel k n s = some (tr, fs) →
      fs.requires_human_approval = true ∧
      fs.processing_complete = true ∧
      fs.final_recommendation.isSome = true ∧
      tr.getLast? = some (Node.hitl, fs) ∧
      (tr.map Prod.fst).count Node.hitl = 1 ∧
      (∀ p ∈ tr.dropLast, p.2.final_recommendation = s.final_recommendation) ∧
      fs.max_iterations = s.max_iterations ∧
      (s.iteration_count ≤ s.max_iterations → fs.iteration_count ≤ s.max_iterations) ∧
      fs.retrieved_docs = s.retrieved_docs ∧
      fs.retrieved_sops = s.retrieved_sops ∧
      fs.retrieved_landmarks = s.retrieved_landmarks ∧
      fs.retrieved_images = s.retrieved_images := by
  intro fuel
  induction fuel with
  | zero => intro k n s tr fs h; simp [runAux] at h
  | succ fuel ih =>
    intro k n s tr fs h
    by_cases hn : n = Node.hitl
    · subst hn
      rw [runAux, if_pos rfl] at h
      injection h with h'
      injection h' with h1 h2
      subst h1
      subst h2
      refine ⟨rfl, rfl, rfl, rfl, ?_, ?_, rfl, fun hle => hle, rfl, rfl, rfl, rfl⟩
      · simp
      · simp
    · simp only [runAux, if_neg hn] at h
      split at h
      · exact absurd h (by simp)
      · rename_i n' hname
        split at h
        · exact absurd h (by simp)
        · rename_i tr' fs' hr
          injection h with h'
          injection h' with h1 h2
          subst h1
          subst h2
          · obtain ⟨ihrha, ihpc, ihfin, ihlast, ihcount, ihdrop, ihmax, ihiter,
              ihd, ihs, ihl, ihi⟩ := ih (k + 1) n' _ tr' fs' hr
            obtain ⟨prfin, prd, prs, prl, pri, prmax⟩ :=
              stepRoute_pres n (execNode (env k) n s)
            obtain ⟨exd, exs, exl, exi⟩ := execNode_retrieved (env k) n s
            have hexic : (execNode (env k) n s).iteration_count = s.iteration_count :=
              execNode_iteration_count (env k) n s
            have hexmax : (execNode (env k) n s).max_iterations = s.max_iterations :=
              execNode_max_iterations (env k) n s
            have hexfin : (execNode (env k) n s).final_recommendation = s.final_recommendation :=
              execNode_final_rec (env k) n s hn
            have htr'ne : tr' ≠ [] := by
              intro hnil
              rw [hnil] at ihlast
              simp at ihlast
            refine ⟨ihrha, ihpc, ihfin, ?_, ?_, ?_, ?_, ?_, ?_, ?_, ?_, ?_⟩
            · cases tr' with
              | nil => exact absurd rfl htr'ne
              | cons a l => rw [List.getLast?_cons_cons]; exact ihlast
            · simp only [List.map_cons, List.count_cons, ihcount]
              simp [hn]
            · intro p hp
              cases tr' with
              | nil => exact absurd rfl htr'ne
              | cons a l =>
                rw [List.dropLast_cons₂] at hp
                rcases List.mem_cons.mp hp with rfl | hp'
                · exact prfin.trans hexfin
                · exact (ihdrop p hp').trans (prfin.trans hexfin)
            · exact ihmax.trans (prmax.trans hexmax)
            · intro hle
              have h2 : (stepRoute n (execNode (env k) n s)).2.iteration_count ≤ s.max_iterations := by
                have := stepRoute_iter n (execNode (env k) n s) (by omega)
                omega
              have h3 := ihiter (by omega)
              omega
            · exact ihd.trans (prd.trans exd)
            · exact ihs.trans (prs.trans exs)
            · exact ihl.trans (prl.trans exl)
            · exact ihi.trans (pri.trans exi)


lemma runAux_chain (env : Nat → AgentOutput) (P : IncidentState → IncidentState → Prop)
    (hnode : ∀ o n s, n ≠ Node.hitl → P s (stepRoute n (execNode o n s)).2)
    (hhitl : ∀ s, P s (hitlNode s)) :
    ∀ fuel k n s tr fs, runAux env fuel k n s = some (tr, fs) →
      chainRel P (stateChain s tr) := by
  intro fuel
  induction fuel with
  | zero => intro k n s tr fs h; simp [runAux] at h
  | succ fuel ih =>
    intro k n s tr fs h
    by_cases hn : n = Node.hitl
    · subst hn
      rw [runAux, if_pos rfl] at h
      injection h with h'
      injection h' with h1 h2
      subst h1
      subst h2
      exact ⟨hhitl s, trivial⟩
    · simp only [runAux, if_neg hn] at h
      split at h
      · exact absurd h (by simp)
      · rename_i n' hname
        split at h
        · exact absurd h (by simp)
        · rename_i tr' fs' hr
          injection h with h'
          injection h' with h1 h2
          subst h1
          subst h2
          exact ⟨hnode (env k) n s hn, ih (k + 1) n' _ tr' fs' hr⟩

lemma pref_of_ite {α : Type} (l m : List α) (c : Prop) [Decidable c] :
    l <+: (if c then l else l ++ m) := by
  split_ifs
  · exact ⟨[], List.append_nil l⟩
  · exact ⟨m, rfl⟩

lemma stepRoute_lists (n : Node) (s : IncidentState) :
    (stepRoute n s).2.agent_history = s.agent_history ∧
    (stepRoute n s).2.grounded_claims = s.grounded_claims := by
  rcases stepRoute_snd n s with h | ⟨_, h⟩ <;> rw [h] <;> exact ⟨rfl, rfl⟩

lemma append_only_step (o : AgentOutput) (n : Node) (s : IncidentState)
    (hn : n ≠ Node.hitl) :
    s.agent_history <+: (stepRoute n (execNode o n s)).2.agent_history ∧
    s.grounded_claims <+: (stepRoute n (execNode o n s)).2.grounded_claims ∧
    (stepRoute n (execNode o n s)).2.retrieved_docs = s.retrieved_docs ∧
    (stepRoute n (execNode o n s)).2.retrieved_sops = s.retrieved_sops ∧
    (stepRoute n (execNode o n s)).2.retrieved_landmarks = s.retrieved_landmarks ∧
    (stepRoute n (execNode o n s)).2.retrieved_images = s.retrieved_images := by
  obtain ⟨hh, hg⟩ := stepRoute_lists n (execNode o n s)
  obtain ⟨_, prd, prs, prl, pri, _⟩ := stepRoute_pres n (execNode o n s)
  obtain ⟨exd, exs, exl, exi⟩ := execNode_retrieved o n s
  rw [hh, hg, prd, prs, prl, pri, exd, exs, exl, exi]
  refine ⟨?_, ?_, rfl, rfl, rfl, rfl⟩ <;> cases n with
  | hitl => exact absurd rfl hn
  | supervisor => first
    | exact ⟨["supervisor"], rfl⟩
    | exact ⟨[], List.append_nil _⟩
  | triage => first
    | exact ⟨["triage"], rfl⟩
    | exact pref_of_ite _ _ _
  | geo => first
    | exact ⟨["geo"], rfl⟩
    | exact ⟨[], List.append_nil _⟩
  | protocol => first
    | exact ⟨["protocol"], rfl⟩
    | exact pref_of_ite _ _ _
  | vision => first
    | exact ⟨["vision"], rfl⟩
    | exact ⟨[], List.append_nil _⟩
  | reflector => first
    | exact ⟨["reflector"], rfl⟩
    | exact ⟨[], List.append_nil _⟩


/-- C1: the checkpoint (hitl) node — and it alone — assembles the final
recommendation and, regardless of the record's prior contents, sets
`processing_complete = true` and `requires_human_approval = true`; no
node executes after it (it is the last entry of every terminating
trace, and the only checkpoint entry). -/
theorem C1_checkpoint_finalizes :
    (∀ s : IncidentState, (hitlNode s).processing_complete = true ∧
      (hitlNode s).requires_human_approval = true ∧
      (hitlNode s).final_recommendation.isSome = true) ∧
    (∀ (o : AgentOutput) (n : Node) (s : IncidentState), n ≠ Node.hitl →
      (execNode o n s).final_recommendation = s.final_recommendation ∧
      (execNode o n s).processing_complete = s.processing_complete) ∧
    (∀ (env : Nat → AgentOutput) (s0 : IncidentState) tr fs,
      runWorkflow env s0 = some (tr, fs) →
      tr.getLast? = some (Node.hitl, fs) ∧
      (tr.map Prod.fst).count Node.hitl = 1) := by
  refine ⟨fun s => ⟨rfl, rfl, rfl⟩, ?_, ?_⟩
  · intro o n s hn
    cases n <;> first | exact ⟨rfl, rfl⟩ | exact absurd rfl hn
  · intro env s0 tr fs h
    have hs := runAux_spec env (workflowFuel s0) 0 Node.supervisor s0 tr fs h
    exact ⟨hs.2.2.2.1, hs.2.2.2.2.1⟩

/-- Witness for C1 at a concrete state, node and run. -/
theorem C1_checkpoint_finalizes_witness :
    (hitlNode stBase).processing_complete = true ∧
    (execNode {} Node.triage stBase).final_recommendation = stBase.final_recommendation ∧
    (((runWorkflow envU stBase).getD ([], stBase)).1).getLast? =
      some (Node.hitl, ((runWorkflow envU stBase).getD ([], stBase)).2) :=
  ⟨(C1_checkpoint_finalizes.1 stBase).1,
   (C1_checkpoint_finalizes.2.1 {} Node.triage stBase (by decide)).1,
   (C1_checkpoint_finalizes.2.2 envU stBase
      (((runWorkflow envU stBase).getD ([], stBase)).1)
      (((runWorkflow envU stBase).getD ([], stBase)).2) rfl).1⟩

/-- C2 counterexample: in the run driven by `envMono`, triage sets
`requires_human_approval = true` but the subsequent reflector pass
resets it to `false` (the flag sequence along the run is
[false, false, true, true, false, true]), so the flag is not monotone
across node executions. -/
theorem C2_monotone_cex : ¬ ApprovalMonotoneRun envMono stBase := by
  intro h
  have h2 := h (((runWorkflow envMono stBase).getD ([], stBase)).1)
    (((runWorkflow envMono stBase).getD ([], stBase)).2) rfl
  revert h2
  decide

/-- C2 amended: `requires_human_approval` is overwritten by the triage
and reflector nodes, so it is not monotone across node executions, but
every terminating run ends with it `true`, because the checkpoint sets
it unconditionally; hence it is true in the final recommendation. -/
theorem C2_approval_true_at_end (env : Nat → AgentOutput) (s0 : IncidentState)
    (tr : List (Node × IncidentState)) (fs : IncidentState)
    (h : runWorkflow env s0 = some (tr, fs)) :
    fs.requires_human_approval = true :=
  (runAux_spec env (workflowFuel s0) 0 Node.supervisor s0 tr fs h).1

/-- Witness for the amended C2 at a concrete run. -/
theorem C2_approval_true_at_end_witness :
    (((runWorkflow envMono stBase).getD ([], stBase)).2).requires_human_approval = true :=
  C2_approval_true_at_end envMono stBase
    (((runWorkflow envMono stBase).getD ([], stBase)).1)
    (((runWorkflow envMono stBase).getD ([], stBase)).2) rfl

/-- C3: for every input and every agent behaviour, the workflow run
terminates (the graph driver returns a result within the supplied
fuel), the checkpoint node executes exactly once and is the last node,
and the loop-back iteration counter never exceeds `max_iterations`
(i.e. at most `max_iterations` reflection loop-backs occur). -/
theorem C3_termination (env : Nat → AgentOutput)
    (incident_id query text_input channel user_role : String)
    (location : Option Location) (audio_transcript : Option String)
    (image_embeddings : Option (List (List ℚ))) :
    (runWorkflow env (createInitialState incident_id query text_input channel
        user_role location audio_transcript image_embeddings)).isSome = true ∧
    ∀ tr fs, runWorkflow env (createInitialState incident_id query text_input channel
        user_role location audio_transcript image_embeddings) = some (tr, fs) →
      (tr.map Prod.fst).count Node.hitl = 1 ∧
      tr.getLast? = some (Node.hitl, fs) ∧
      fs.iteration_count ≤ fs.max_iterations := by
  refine ⟨runWorkflow_isSome env _, ?_⟩
  intro tr fs h
  have hs := runAux_spec env _ 0 Node.supervisor _ tr fs h
  refine ⟨hs.2.2.2.2.1, hs.2.2.2.1, ?_⟩
  have hmax := hs.2.2.2.2.2.2.1
  have hiter := hs.2.2.2.2.2.2.2.1 (Nat.zero_le _)
  omega

/-- Witness for C3 at a concrete agent behaviour. -/
theorem C3_termination_witness :
    (runWorkflow envB stBase).isSome = true ∧
    ((((runWorkflow envB stBase).getD ([], stBase)).1).map Prod.fst).count Node.hitl = 1 := by
  have h := C3_termination envB "inc-1" "fire downtown" "fire downtown" "web"
    "dispatcher" none none none
  exact ⟨h.1, (h.2 (((runWorkflow envB stBase).getD ([], stBase)).1)
    (((runWorkflow envB stBase).getD ([], stBase)).2) rfl).1⟩

/-- C4 counterexample: in Scenario B (reflector always returns quality
0.3 and loop-back target "triage", `max_iterations = 5`), the final
`agent_history` contains 6 "triage" entries — the initial mandatory
triage pass plus the 5 loop-back passes — not 5 as claimed. -/
theorem C4_scenarioB_cex :
    (runWorkflow envB stBase).map (fun p => p.2.agent_history.count "triage")
      = some 6 ∧ (6 : Nat) ≠ 5 := by
  exact ⟨by decide, by decide⟩

/-- C4 amended: in Scenario B the run terminates with
`iteration_count = 5`, routes to the checkpoint (the last executed node
is hitl), the final quality score is the last reflector's 0.3, and
`agent_history` contains exactly 6 "triage" entries. -/
theorem C4_scenarioB_run :
    (runWorkflow envB stBase).map (fun p =>
        (p.2.iteration_count, p.2.quality_score, p.2.agent_history.count "triage",
          p.1.getLast?.map Prod.fst))
      = some (5, some (mkRat 3 10), 6, some Node.hitl) := by
  decide

/-- C5 counterexample: if the first `process` call for an identifier
takes the error path, nothing is cached, so a second call with
`force_reprocess = false` recomputes and can return a different result
— the claim fails for error-path first calls. -/
theorem C5_idempotency_cex :
    (processIncident
        (processIncident [] "inc-1" false (Except.error "llm down") "prod" 0).2
        "inc-1" false (Except.ok okResult) "prod" 0).1 ≠
      (processIncident [] "inc-1" false (Except.error "llm down") "prod" 0).1 := by
  decide

/-- C5 amended: when the first call completes normally (so its result
is cached), a second call with the same identifier and
`force_reprocess = false` returns exactly the first call's result, for
any outcome of the second computation (i.e. without recomputing); a
call with `force_reprocess = true` recomputes and returns the fresh
result. -/
theorem C5_idempotency_amended (cache : List (String × OrchResult))
    (incident_id mode : String) (ms1 ms2 : Nat) (r r2 : OrchResult)
    (comp2 : Except String OrchResult) :
    (processIncident
        (processIncident cache incident_id false (Except.ok r) mode ms1).2
        incident_id false comp2 mode ms2).1 =
      (processIncident cache incident_id false (Except.ok r) mode ms1).1 ∧
    (processIncident cache incident_id true (Except.ok r2) mode ms2).1 =
      { r2 with processing_time_ms := ms2, mode := some mode } := by
  constructor
  · cases hl : List.lookup incident_id cache <;>
      simp [processIncident, hl, List.lookup]
  · cases hl : List.lookup incident_id cache <;>
      simp [processIncident, hl]

/-- C6 counterexample: a `process` call that takes the error path
returns the fallback (status "error") without storing anything in the
idempotency cache — the cache still has no entry for the identifier. -/
theorem C6_error_not_cached_cex :
    List.lookup "inc-1" (processIncident [] "inc-1" false
        (Except.error "llm down") "prod" 7).2 = none ∧
    (processIncident [] "inc-1" false (Except.error "llm down") "prod" 7).1.status
      = "error" := by
  exact ⟨by decide, by decide⟩

/-- C6 amended: a normally completed result is stored in the
idempotency cache under the incident identifier before `process`
returns (the returned result is the cached one); a result produced by
the orchestrator-level error path is returned without being stored (the
cache is unchanged). -/
theorem C6_cache_amended (cache : List (String × OrchResult))
    (incident_id mode e : String) (ms : Nat) (r : OrchResult) (force force2 : Bool) :
    List.lookup incident_id
        (processIncident cache incident_id force (Except.ok r) mode ms).2 =
      some (processIncident cache incident_id force (Except.ok r) mode ms).1 ∧
    (processIncident cache incident_id force2 (Except.error e) mode ms).2 = cache := by
  constructor
  · cases force <;> cases hl : List.lookup incident_id cache <;>
      simp [processIncident, hl, List.lookup]
  · cases force2 <;> cases hl : List.lookup incident_id cache <;>
      simp [processIncident, hl]


/-- C7: each similarity search is independently fault-tolerant — a
failure of any one of the four searches yields an empty list for that
collection only, the other searches' results are kept; if all four
fail, the context is entirely empty and the workflow still runs to a
recommendation with all evidence lists empty. -/
theorem C7_retrieval_degraded
    (v : List ℚ) (e1 e2 e3 e4 : String) (rdocs rsops rland rimg : List String)
    (env : Nat → AgentOutput)
    (incident_id query text_input channel user_role : String)
    (audio_transcript : Option String) (imgs : List (List ℚ)) (himgs : imgs ≠ []) :
    retrieveContext ⟨Except.ok v, Except.error e1, Except.ok rsops, Except.ok rland,
        Except.ok rimg⟩ none (some imgs) =
      { docs := [], sops := rsops, landmarks := rland, images := rimg } ∧
    retrieveContext ⟨Except.ok v, Except.ok rdocs, Except.error e2, Except.ok rland,
        Except.ok rimg⟩ none (some imgs) =
      { docs := rdocs, sops := [], landmarks := rland, images := rimg } ∧
    retrieveContext ⟨Except.ok v, Except.ok rdocs, Except.ok rsops, Except.error e3,
        Except.ok rimg⟩ none (some imgs) =
      { docs := rdocs, sops := rsops, landmarks := [], images := rimg } ∧
    retrieveContext ⟨Except.ok v, Except.ok rdocs, Except.ok rsops, Except.ok rland,
        Except.error e4⟩ none (some imgs) =
      { docs := rdocs, sops := rsops, landmarks := rland, images := [] } ∧
    retrieveContext ⟨Except.ok v, Except.error e1, Except.error e2, Except.error e3,
        Except.error e4⟩ none (some imgs) = {} ∧
    (runWorkflow env (prodInitialState incident_id query text_input channel user_role
        none audio_transcript (some imgs) {})).isSome = true ∧
    ∀ tr fs, runWorkflow env (prodInitialState incident_id query text_input channel
        user_role none audio_transcript (some imgs) {}) = some (tr, fs) →
      fs.retrieved_docs = [] ∧ fs.retrieved_sops = [] ∧
      fs.retrieved_landmarks = [] ∧ fs.retrieved_images = [] := by
  have himt : imagesTruthy (some imgs) = true := by
    simp [imagesTruthy, himgs]
  refine ⟨?_, ?_, ?_, ?_, ?_, runWorkflow_isSome env _, ?_⟩
  · simp [retrieveContext, himt]
  · simp [retrieveContext, himt]
  · simp [retrieveContext, himt]
  · simp [retrieveContext, himt]
  · simp [retrieveContext]
  · intro tr fs h
    have hs := runAux_spec env _ 0 Node.supervisor _ tr fs h
    exact ⟨hs.2.2.2.2.2.2.2.2.1, hs.2.2.2.2.2.2.2.2.2.1,
      hs.2.2.2.2.2.2.2.2.2.2.1, hs.2.2.2.2.2.2.2.2.2.2.2⟩

/-- Witness for C7 at concrete inputs. -/
theorem C7_retrieval_degraded_witness :
    retrieveContext ⟨Except.ok [], Except.error "down", Except.error "down",
        Except.error "down", Except.error "down"⟩ none (some [[]]) = {} ∧
    (runWorkflow envU (prodInitialState "inc-1" "q" "q" "web" "dispatcher"
        none none (some [[]]) {})).isSome = true ∧
    (((runWorkflow envU (prodInitialState "inc-1" "q" "q" "web" "dispatcher"
        none none (some [[]]) {})).getD ([], stBase)).2).retrieved_docs = [] := by
  have h := C7_retrieval_degraded [] "down" "down" "down" "down" [] [] [] [] envU
    "inc-1" "q" "q" "web" "dispatcher" none [[]] (by decide)
  refine ⟨h.2.2.2.2.1, h.2.2.2.2.2.1, ?_⟩
  exact (h.2.2.2.2.2.2
    (((runWorkflow envU (prodInitialState "inc-1" "q" "q" "web" "dispatcher"
        none none (some [[]]) {})).getD ([], stBase)).1)
    (((runWorkflow envU (prodInitialState "inc-1" "q" "q" "web" "dispatcher"
        none none (some [[]]) {})).getD ([], stBase)).2) rfl).1

/-- C8 counterexample: in the run driven by `envLoop` the reflector
loops back to triage once, and the second triage execution replaces
`recommended_assets` (`["Fire_Engine"]` becomes `["ALS_Ambulance"]`),
so the consecutive-states extension property fails for
`recommended_assets`. -/
theorem C8_append_only_cex : ¬ AppendOnlyRun envLoop stBase := by
  intro h
  have h2 := h (((runWorkflow envLoop stBase).getD ([], stBase)).1)
    (((runWorkflow envLoop stBase).getD ([], stBase)).2) rfl
  revert h2
  decide

/-- C8 amended: `agent_history` and `grounded_claims` are append-only
along every run, and the retrieved-evidence lists are never modified by
any node; but `recommended_assets` is replaced wholesale by each triage
execution (and `ambiguities` by each supervisor execution with a
non-empty output), so those two can shrink or change when the
reflection loop re-enters a node. -/
theorem C8_append_only_amended (env : Nat → AgentOutput) (s0 : IncidentState)
    (tr : List (Node × IncidentState)) (fs : IncidentState)
    (h : runWorkflow env s0 = some (tr, fs)) :
    chainRel (fun a b =>
        a.agent_history <+: b.agent_history ∧
        a.grounded_claims <+: b.grounded_claims ∧
        b.retrieved_docs = a.retrieved_docs ∧
        b.retrieved_sops = a.retrieved_sops ∧
        b.retrieved_landmarks = a.retrieved_landmarks ∧
        b.retrieved_images = a.retrieved_images)
      (stateChain s0 tr) := by
  refine runAux_chain env _ ?_ ?_ (workflowFuel s0) 0 Node.supervisor s0 tr fs h
  · intro o n s hn
    exact append_only_step o n s hn
  · intro s
    exact ⟨⟨[], List.append_nil _⟩, ⟨[], List.append_nil _⟩, rfl, rfl, rfl, rfl⟩

/-- Witness for the amended C8 at a concrete run. -/
theorem C8_append_only_amended_witness :
    chainRel (fun a b =>
        a.agent_history <+: b.agent_history ∧
        a.grounded_claims <+: b.grounded_claims ∧
        b.retrieved_docs = a.retrieved_docs ∧
        b.retrieved_sops = a.retrieved_sops ∧
        b.retrieved_landmarks = a.retrieved_landmarks ∧
        b.retrieved_images = a.retrieved_images)
      (stateChain stBase (((runWorkflow envMono stBase).getD ([], stBase)).1)) :=
  C8_append_only_amended envMono stBase
    (((runWorkflow envMono stBase).getD ([], stBase)).1)
    (((runWorkflow envMono stBase).getD ([], stBase)).2) rfl

/-- C9 counterexample: when the supervisor classifies the intent as
"unclear" the run goes straight to the checkpoint, which assembles the
final recommendation even though `agent_history` (= ["supervisor"])
contains no triage execution. -/
theorem C9_triage_gate_cex : ¬ TriageBeforeAssembly envU stBase := by
  intro h
  have h2 := h (((runWorkflow envU stBase).getD ([], stBase)).1)
    (((runWorkflow envU stBase).getD ([], stBase)).2) rfl (by decide)
  revert h2
  decide

/-- C9 amended: the final recommendation is assembled exactly once per
run and only by the checkpoint node (every earlier trace state still
carries the initial `final_recommendation`, the checkpoint executes
exactly once, as the last node, and the final state carries the
assembled recommendation) — but it can be assembled in runs that never
executed triage (supervisor-unclear or geo/vision
needs-more-information short-circuits). -/
theorem C9_final_rec_once (env : Nat → AgentOutput) (s0 : IncidentState)
    (tr : List (Node × IncidentState)) (fs : IncidentState)
    (h : runWorkflow env s0 = some (tr, fs)) :
    fs.final_recommendation.isSome = true ∧
    (tr.map Prod.fst).count Node.hitl = 1 ∧
    tr.getLast? = some (Node.hitl, fs) ∧
    ∀ p ∈ tr.dropLast, p.2.final_recommendation = s0.final_recommendation := by
  have hs := runAux_spec env (workflowFuel s0) 0 Node.supervisor s0 tr fs h
  exact ⟨hs.2.2.1, hs.2.2.2.2.1, hs.2.2.2.1, hs.2.2.2.2.2.1⟩

/-- Witness for the amended C9 at a concrete run. -/
theorem C9_final_rec_once_witness :
    ((((runWorkflow envLoop stBase).getD ([], stBase)).2).final_recommendation).isSome = true ∧
    ((((runWorkflow envLoop stBase).getD ([], stBase)).1).map Prod.fst).count Node.hitl = 1 :=
  ⟨(C9_final_rec_once envLoop stBase
      (((runWorkflow envLoop stBase).getD ([], stBase)).1)
      (((runWorkflow envLoop stBase).getD ([], stBase)).2) rfl).1,
   (C9_final_rec_once envLoop stBase
      (((runWorkflow envLoop stBase).getD ([], stBase)).1)
      (((runWorkflow envLoop stBase).getD ([], stBase)).2) rfl).2.1⟩

/-- C10: in fast-path (test) mode, for every successfully parsed
completion result, the returned recommendation has
`requires_human_approval = true` iff the parsed priority is "P1" or
"P2"; in particular a returned priority of P3, P4 or P5 comes with
`requires_human_approval = false`. -/
theorem C10_testmode_approval (incident_id : String) (parsed : TestParsed)
    (tokens : Nat) (model : String) :
    ((processTestMode incident_id parsed tokens model).requires_human_approval = true ↔
      parsed.priority = some "P1" ∨ parsed.priority = some "P2") ∧
    ((processTestMode incident_id parsed tokens model).priority = "P3" ∨
      (processTestMode incident_id parsed tokens model).priority = "P4" ∨
      (processTestMode incident_id parsed tokens model).priority = "P5" →
      (processTestMode incident_id parsed tokens model).requires_human_approval = false) := by
  constructor
  · simp [processTestMode]
  · intro hp
    rcases hpp : parsed.priority with _ | p
    · simp [processTestMode, hpp]
    · simp only [processTestMode, hpp, Option.getD_some] at hp ⊢
      simp only [decide_eq_false_iff_not]
      rcases hp with rfl | rfl | rfl <;> simp
/-- Witness for C10: a parsed priority of "P4" yields
`requires_human_approval = false`. -/
theorem C10_testmode_approval_witness :
    (processTestMode "inc-1" { priority := some "P4" } 0 "m").requires_human_approval
      = false :=
  (C10_testmode_approval "inc-1" { priority := some "P4" } 0 "m").2
    (Or.inr (Or.inl rfl))

end ResQ
